import Mathlib

/-!
Shallow embedding of `src/apps/core/headless/python/noname_env.py`
(`NonameEnv`, a process-supervised protocol bridge between a training loop
and a Node worker), together with proofs of the specified properties.

Modelling conventions:
* Python numbers carried in the protocol are modelled as `Int`.
* The worker is modelled as a script: a list of raw stdout lines that
  `_read_json` consumes one at a time.  An empty script means the queue
  stays empty until the deadline (`timeout`).
* `json.loads` is an external library call; a raw line is therefore
  modelled as the pair of its text and its parse result (`none` when the
  text is not valid JSON).
* Exceptions are modelled with `Except`; a function returning a plain
  value models code that never raises.
* Commands written to the worker's stdin are returned as an explicit
  trace, so "nothing was sent" is the trace being `[]`.
-/

namespace NonameEnv

/-- `PMAX = 8` from the source. -/
def PMAX : Nat := 8

/-- `HMAX = 20` from the source. -/
def HMAX : Nat := 20

/-- `BMAX = 30` from the source. -/
def BMAX : Nat := 30

/-- `ACTION_DIM = HMAX + PMAX + BMAX + 2` from the source. -/
def ACTION_DIM : Nat := HMAX + PMAX + BMAX + 2

/-- `OBS_DIM = PMAX * 5 + HMAX * 3 + 2` from the source. -/
def OBS_DIM : Nat := PMAX * 5 + HMAX * 3 + 2

/-- The shape-repair step of `_decode_step` (lines 162-177): if the incoming
vector already has the declared length it passes through unchanged; otherwise
a zero-filled buffer of the declared length is allocated and the first
`min (len xs) N` elements are copied into its front (`fixed[:n] = v[:n]`). -/
def fixToLen {α : Type} (N : Nat) (zero : α) (xs : List α) : List α :=
  if xs.length = N then xs
  else xs.take (min N xs.length) ++ List.replicate (N - min N xs.length) zero

/-- `np.asarray(msg.get("obs", []), dtype=np.float32)` followed by the shape
repair against `OBS_DIM` (lines 163-169). -/
def normalizeObs (xs : List Int) : List Int :=
  fixToLen OBS_DIM 0 xs

/-- A primitive JSON scalar as it may appear in a `mask` payload. -/
inductive PVal where
  | num (n : Int)
  | bool (b : Bool)
deriving DecidableEq, Repr

/-- Truthiness as applied by `np.asarray(..., dtype=np.bool_)`: a number is
truthy iff nonzero, a boolean is itself. -/
def PVal.truthy : PVal → Bool
  | .num n => n != 0
  | .bool b => b

/-- `np.asarray(msg.get("mask", []), dtype=np.bool_)` followed by the shape
repair against `ACTION_DIM` (lines 170-176): element-wise boolean coercion,
then pad with `False` / truncate to the declared length. -/
def normalizeMask (vs : List PVal) : List Bool :=
  fixToLen ACTION_DIM false (vs.map PVal.truthy)

/-- The repaired vector always has the declared length. -/
theorem fixToLen_length {α : Type} (N : Nat) (zero : α) (xs : List α) :
    (fixToLen N zero xs).length = N := by
  unfold fixToLen
  split
  · assumption
  · simp [List.length_append, List.length_take, List.length_replicate]

/-- Elements in the copied prefix are read from the source vector. -/
theorem fixToLen_getD_lt {α : Type} (N : Nat) (zero : α) (xs : List α)
    (i : Nat) (hi : i < min xs.length N) :
    (fixToLen N zero xs).getD i zero = xs.getD i zero := by
  unfold fixToLen
  split
  · rfl
  · have ht : i < (xs.take (min N xs.length)).length := by
      simp [List.length_take]
      omega
    rw [List.getD_append _ _ _ _ ht]
    have h1 : i < xs.length := by omega
    rw [List.getD_eq_getElem _ _ ht, List.getD_eq_getElem _ _ h1]
    simp

/-- Elements beyond the copied prefix are the fill value. -/
theorem fixToLen_getD_ge {α : Type} (N : Nat) (zero : α) (xs : List α)
    (i : Nat) (hi : min xs.length N ≤ i) :
    (fixToLen N zero xs).getD i zero = zero := by
  unfold fixToLen
  split
  · rename_i h
    exact List.getD_eq_default _ _ (by omega)
  · have hlt : (xs.take (min N xs.length)).length ≤ i := by
      simp [List.length_take]
      omega
    rw [List.getD_append_right _ _ _ _ hlt]
    simp only [List.length_take]
    rcases Nat.lt_or_ge (i - min N xs.length) (N - min N xs.length) with h2 | h2
    · rw [List.getD_eq_getElem _ _ (by simpa [List.length_replicate] using h2)]
      simp
    · exact List.getD_eq_default _ _ (by simpa [List.length_replicate] using h2)

/-- A JSON value, as delivered by the worker inside a decoded message.  Used
to model the `snapshot` payload, whose shape check (`isinstance(snap, dict)`)
distinguishes a mapping from every other JSON shape. -/
inductive JVal where
  | num (n : Int)
  | bool (b : Bool)
  | str (s : String)
  | arr (xs : List JVal)
  | obj (kvs : List (String × JVal))
  | null

/-- A decoded response message (the mapping returned by `json.loads`), with
every protocol field optional: `msg.get(field, default)` in the source is
`(field).getD default` here. -/
structure Msg where
  obs : Option (List Int) := none
  mask : Option (List PVal) := none
  reward : Option Int := none
  done : Option Bool := none
  snapshot : Option JVal := none

/-- One line read from the worker's stdout: its raw text together with the
result of `json.loads` on it (`none` when the text is not valid JSON).
`json.loads` is an external library call, so its outcome is part of the
input rather than recomputed. -/
structure RawLine where
  raw : String
  parsed : Option Msg

/-- The errors the bridge can raise (each `RuntimeError`/`ValueError` site in
the source gets one constructor). -/
inductive EnvError where
  | notRunning
  | invalidAction (action : Int)
  | timeout
  | protocolError (raw : String)
  | snapshotUnavailable (msg : Msg)

/-- A command written to the worker's stdin (`_write_json` payloads). -/
inductive Cmd where
  | hello (seed : Int) (mode singleMode : String) (seat : Int)
  | step (action : Int)
  | snapshot

/-- The externally observable process-control actions of the bridge, in
order: spawning a worker (`subprocess.Popen`), killing it (`_proc.kill()`),
and writing a command line to its stdin.  "Nothing was sent to the worker"
is the absence of `wrote` events. -/
inductive Event where
  | spawned
  | killed
  | wrote (c : Cmd)

/-- The mutable fields of `NonameEnv` that the bridge logic reads or writes:
`_proc is not None` becomes `procAlive`, plus `_last_mask`, `_episode_seed`,
`base_seed` and the construction parameters echoed into `hello`. -/
structure EnvState where
  procAlive : Bool
  lastMask : List Bool
  episodeSeed : Int
  baseSeed : Int
  mode : String
  singleMode : String
  seat : Int

/-- `__init__` (lines 32-63): no worker yet, `_last_mask` all-false of length
`ACTION_DIM`, `_episode_seed = base_seed = int(seed)`. -/
def initState (seed : Int) (mode singleMode : String) (seat : Int) : EnvState :=
  { procAlive := false
    lastMask := List.replicate ACTION_DIM false
    episodeSeed := seed
    baseSeed := seed
    mode := mode
    singleMode := singleMode
    seat := seat }

/-- `close` (lines 225-237): kill the worker if one is alive — exceptions
from a process that already exited are swallowed, so the state outcome does
not depend on them and the function is total (it never raises) — then stop
both pipe readers.  Only `_proc` (here `procAlive`) changes; a kill event is
emitted only when a worker was alive. -/
def close (st : EnvState) : EnvState × List Event :=
  ({ st with procAlive := false },
   if st.procAlive then [Event.killed] else [])

/-- `_start` (lines 112-140): spawn the worker and send the `hello` command
carrying the seed, mode, single_mode and seat. -/
def start (st : EnvState) (seed : Int) : EnvState × List Event :=
  ({ st with procAlive := true },
   [Event.spawned, Event.wrote (Cmd.hello seed st.mode st.singleMode st.seat)])

/-- `_read_json` (lines 148-160) against the script of pending stdout lines:
an empty script is a queue that stays empty until the deadline (`Timeout`);
a line whose `json.loads` fails raises the protocol error carrying the raw
line; otherwise the parsed mapping is returned. -/
def read_json (lines : List RawLine) : Except EnvError (Msg × List RawLine) :=
  match lines with
  | [] => .error .timeout
  | l :: rest =>
    match l.parsed with
    | none => .error (.protocolError l.raw)
    | some m => .ok (m, rest)

/-- `_decode_step` (lines 162-180): normalize `obs` to `OBS_DIM` and `mask`
to `ACTION_DIM` (missing fields default to the empty sequence), store the
mask as `_last_mask`, default `reward` to 0 and `done` to false. -/
def decode_step (st : EnvState) (msg : Msg) :
    (List Int × Int × Bool) × EnvState :=
  let obs := normalizeObs (msg.obs.getD [])
  let mask := normalizeMask (msg.mask.getD [])
  ((obs, msg.reward.getD 0, msg.done.getD false), { st with lastMask := mask })

/-- `reset` (lines 182-195): close any running worker, set the episode seed,
start a worker, read and decode the first response.  If it is terminal,
increment the seed by one, close, start again, and return the second
response's result unconditionally.  The returned trace lists the observable
process-control events in order. -/
def reset (st : EnvState) (seed : Option Int) (lines : List RawLine) :
    Except EnvError (List Int × List Bool × EnvState × List RawLine) × List Event :=
  let (st1, ev1) := close st
  let st2 := { st1 with episodeSeed := seed.getD st1.baseSeed }
  let (st3, ev2) := start st2 st2.episodeSeed
  match read_json lines with
  | .error e => (.error e, ev1 ++ ev2)
  | .ok (msg, lines1) =>
    let ((obs, _, done), st4) := decode_step st3 msg
    if done then
      let st5 := { st4 with episodeSeed := st4.episodeSeed + 1 }
      let (st6, ev3) := close st5
      let (st7, ev4) := start st6 st6.episodeSeed
      match read_json lines1 with
      | .error e => (.error e, ev1 ++ ev2 ++ ev3 ++ ev4)
      | .ok (msg2, lines2) =>
        let ((obs2, _, _), st8) := decode_step st7 msg2
        (.ok (obs2, st8.lastMask, st8, lines2), ev1 ++ ev2 ++ ev3 ++ ev4)
    else
      (.ok (obs, st4.lastMask, st4, lines1), ev1 ++ ev2)

/-- What `step` returns to the caller:
`(obs, reward, terminated, truncated, info{action_mask})`. -/
structure StepResult where
  obs : List Int
  reward : Int
  terminated : Bool
  truncated : Bool
  actionMask : List Bool

/-- `step` (lines 197-210): refuse when closed; refuse an out-of-range
action before writing anything; otherwise send the `step` command, decode
the response, close the worker when it reports `done`, and return
`(obs, reward, terminated, truncated := false, mask)`. -/
def step (st : EnvState) (action : Int) (lines : List RawLine) :
    Except EnvError (StepResult × EnvState × List RawLine) × List Event :=
  if st.procAlive = false then (.error .notRunning, [])
  else if action < 0 ∨ (ACTION_DIM : Int) ≤ action then
    (.error (.invalidAction action), [])
  else
    match read_json lines with
    | .error e => (.error e, [Event.wrote (Cmd.step action)])
    | .ok (msg, lines1) =>
      let ((obs, reward, done), st1) := decode_step st msg
      let (st2, ev2) := if done then close st1 else (st1, [])
      (.ok ({ obs := obs, reward := reward, terminated := done,
              truncated := false, actionMask := st1.lastMask },
            st2, lines1), Event.wrote (Cmd.step action) :: ev2)

/-- `action_masks` (lines 212-213): a defensive copy of `_last_mask`; a copy
of an immutable value is the value itself. -/
def action_masks (st : EnvState) : List Bool :=
  st.lastMask

/-- `get_snapshot` (lines 215-223): refuse when closed; send the `snapshot`
command, read a response, and demand a `snapshot` field that is a mapping
(`isinstance(snap, dict)`); any other shape raises the snapshot-unavailable
error carrying the whole response.  No state field is written. -/
def get_snapshot (st : EnvState) (lines : List RawLine) :
    Except EnvError (List (String × JVal) × EnvState × List RawLine) × List Event :=
  if st.procAlive = false then (.error .notRunning, [])
  else
    match read_json lines with
    | .error e => (.error e, [Event.wrote Cmd.snapshot])
    | .ok (msg, lines1) =>
      match msg.snapshot with
      | some (JVal.obj kvs) =>
        (.ok (kvs, st, lines1), [Event.wrote Cmd.snapshot])
      | _ =>
        (.error (.snapshotUnavailable msg), [Event.wrote Cmd.snapshot])

/-- The normalized observation always has length `OBS_DIM`. -/
theorem normalizeObs_length (xs : List Int) :
    (normalizeObs xs).length = OBS_DIM :=
  fixToLen_length _ _ _

/-- The normalized mask always has length `ACTION_DIM`. -/
theorem normalizeMask_length (vs : List PVal) :
    (normalizeMask vs).length = ACTION_DIM :=
  fixToLen_length _ _ _

/-- C1: normalizing a numeric observation sequence of length `k` to the
declared length `OBS_DIM` yields a buffer of exactly `OBS_DIM` elements whose
first `min k OBS_DIM` elements are the corresponding input elements and whose
remaining elements are zero; when `k = OBS_DIM` the input passes through
unchanged. -/
theorem C1_obs_normalization (xs : List Int) (i : Nat) :
    (normalizeObs xs).length = OBS_DIM ∧
    (i < min xs.length OBS_DIM → (normalizeObs xs).getD i 0 = xs.getD i 0) ∧
    (min xs.length OBS_DIM ≤ i → (normalizeObs xs).getD i 0 = 0) ∧
    (xs.length = OBS_DIM → normalizeObs xs = xs) := by
  refine ⟨normalizeObs_length xs, fun h => fixToLen_getD_lt _ _ _ _ h,
    fun h => fixToLen_getD_ge _ _ _ _ h, fun h => ?_⟩
  simp [normalizeObs, fixToLen, h]

/-- Witness for C1 at concrete inputs: a short vector is copied then
zero-padded, and a vector of exactly `OBS_DIM` elements is unchanged. -/
theorem C1_obs_normalization_witness :
    (normalizeObs [1, 2, 3]).getD 1 0 = 2 ∧
    (normalizeObs [1, 2, 3]).getD 40 0 = 0 ∧
    normalizeObs (List.replicate OBS_DIM 9) = List.replicate OBS_DIM 9 := by
  refine ⟨?_, ?_, ?_⟩
  · exact ((C1_obs_normalization [1, 2, 3] 1).2.1 (by decide)).trans (by decide)
  · exact (C1_obs_normalization [1, 2, 3] 40).2.2.1 (by decide)
  · exact (C1_obs_normalization (List.replicate OBS_DIM 9) 0).2.2.2 (by simp)

/-- C3: normalizing a boolean-coercible mask sequence to the declared length
`ACTION_DIM` yields a boolean vector of exactly `ACTION_DIM` elements: each
element of the copied prefix is `true` exactly when the corresponding source
element is truthy, and everything beyond the copied prefix is `false`. -/
theorem C3_mask_normalization (vs : List PVal) (i : Nat) :
    (normalizeMask vs).length = ACTION_DIM ∧
    (i < min vs.length ACTION_DIM →
      (normalizeMask vs).getD i false = (vs.getD i (PVal.num 0)).truthy) ∧
    (min vs.length ACTION_DIM ≤ i → (normalizeMask vs).getD i false = false) := by
  refine ⟨normalizeMask_length vs, fun h => ?_, fun h => ?_⟩
  · have hv : i < vs.length := by omega
    have hm : i < (vs.map PVal.truthy).length := by
      simpa [List.length_map] using hv
    have h1 := fixToLen_getD_lt ACTION_DIM false (vs.map PVal.truthy) i
      (by simp [List.length_map]; omega)
    rw [normalizeMask, h1, List.getD_eq_getElem _ _ hm,
      List.getD_eq_getElem _ _ hv, List.getElem_map]
  · exact fixToLen_getD_ge _ _ _ _ (by simpa [List.length_map] using h)

/-- Witness for C3 at a concrete mask: a nonzero number maps to `true`, zero
maps to `false`, and the padding beyond the input is `false`. -/
theorem C3_mask_normalization_witness :
    (normalizeMask [PVal.num 5, PVal.num 0, PVal.bool true]).getD 0 false = true ∧
    (normalizeMask [PVal.num 5, PVal.num 0, PVal.bool true]).getD 1 false = false ∧
    (normalizeMask [PVal.num 5, PVal.num 0, PVal.bool true]).getD 10 false = false := by
  refine ⟨?_, ?_, ?_⟩
  · exact ((C3_mask_normalization [PVal.num 5, PVal.num 0, PVal.bool true] 0).2.1
      (by decide)).trans (by decide)
  · exact ((C3_mask_normalization [PVal.num 5, PVal.num 0, PVal.bool true] 1).2.1
      (by decide)).trans (by decide)
  · exact (C3_mask_normalization [PVal.num 5, PVal.num 0, PVal.bool true] 10).2.2
      (by decide)

/-- C6: a response with all protocol fields absent decodes exactly as a
response carrying the defaults (`obs` → empty sequence, `mask` → empty
sequence, `reward` → 0, `done` → false), and a stdout line that fails to
parse as JSON raises the protocol error carrying the offending raw line. -/
theorem C6_decode_defaults (st : EnvState) (snap : Option JVal) (raw : String)
    (rest : List RawLine) :
    decode_step st { snapshot := snap } =
      decode_step st { obs := some [], mask := some [], reward := some 0,
                       done := some false, snapshot := snap } ∧
    read_json ({ raw := raw, parsed := none } :: rest) =
      .error (.protocolError raw) :=
  ⟨rfl, rfl⟩

/-- C2: when the first response after the `hello` handshake reports
`done = true`, `reset` kills the worker, increments the seed by exactly one,
retries the whole reset exactly once (the trace shows exactly two spawns and
two `hello` writes with consecutive seeds, separated by one kill), and
returns the retry's decoded result unconditionally — whether or not the
retry's own response is terminal — consuming no further responses. -/
theorem C2_reset_retry (st : EnvState) (seed : Option Int)
    (raw1 raw2 : String) (m1 m2 : Msg) (rest : List RawLine)
    (h1 : m1.done = some true) :
    reset st seed (⟨raw1, some m1⟩ :: ⟨raw2, some m2⟩ :: rest) =
      (.ok (normalizeObs (m2.obs.getD []), normalizeMask (m2.mask.getD []),
            { st with procAlive := true,
                      lastMask := normalizeMask (m2.mask.getD []),
                      episodeSeed := seed.getD st.baseSeed + 1 },
            rest),
       (if st.procAlive then [Event.killed] else []) ++
         [Event.spawned,
          Event.wrote (Cmd.hello (seed.getD st.baseSeed)
            st.mode st.singleMode st.seat),
          Event.killed, Event.spawned,
          Event.wrote (Cmd.hello (seed.getD st.baseSeed + 1)
            st.mode st.singleMode st.seat)]) := by
  simp [reset, close, start, read_json, decode_step, h1]

/-- Witness for C2: from a freshly constructed (closed) bridge, a terminal
first response followed by a non-terminal one yields the second response's
result, seed 1, and exactly two handshakes. -/
theorem C2_reset_retry_witness :
    reset (initState 0 "single" "normal" 0) none
        [⟨"r1", some { done := some true }⟩, ⟨"r2", some { obs := some [1, 2] }⟩] =
      (.ok (normalizeObs [1, 2], normalizeMask [],
            { initState 0 "single" "normal" 0 with
              procAlive := true
              lastMask := normalizeMask []
              episodeSeed := 1 },
            []),
       [Event.spawned, Event.wrote (Cmd.hello 0 "single" "normal" 0),
        Event.killed, Event.spawned,
        Event.wrote (Cmd.hello 1 "single" "normal" 0)]) := by
  have h := C2_reset_retry (initState 0 "single" "normal" 0) none "r1" "r2"
    { done := some true } { obs := some [1, 2] } [] rfl
  simpa [initState] using h

/-- C4: with a live worker, `step` called with an action outside
`[0, ACTION_DIM)` fails with the invalid-action error before any process
interaction: the event trace is empty (no bytes written), and no new state
is produced. -/
theorem C4_invalid_action (st : EnvState) (a : Int) (lines : List RawLine)
    (halive : st.procAlive = true)
    (hrange : a < 0 ∨ (ACTION_DIM : Int) ≤ a) :
    step st a lines = (.error (.invalidAction a), []) := by
  unfold step
  rw [if_neg (by simp [halive]), if_pos hrange]

/-- Witness for C4 at the concrete out-of-range action `ACTION_DIM` itself. -/
theorem C4_invalid_action_witness :
    step { initState 0 "single" "normal" 0 with procAlive := true } 60 [] =
      (.error (.invalidAction 60), []) :=
  C4_invalid_action _ 60 [] rfl (by decide)

/-- C5: when the worker's response to a step command reports `done = true`,
`step` returns `terminated = true` and `truncated = false` and kills the
worker, and every subsequent `step` call on the resulting state — with any
action and any pending responses, i.e. without an intervening `reset` —
fails with the not-running error. -/
theorem C5_terminal_step (st : EnvState) (a : Int) (raw : String) (msg : Msg)
    (rest : List RawLine)
    (halive : st.procAlive = true) (hlo : 0 ≤ a) (hhi : a < (ACTION_DIM : Int))
    (hdone : msg.done = some true) :
    step st a (⟨raw, some msg⟩ :: rest) =
      (.ok ({ obs := normalizeObs (msg.obs.getD []),
              reward := msg.reward.getD 0,
              terminated := true, truncated := false,
              actionMask := normalizeMask (msg.mask.getD []) },
            { st with procAlive := false,
                      lastMask := normalizeMask (msg.mask.getD []) },
            rest),
       [Event.wrote (Cmd.step a), Event.killed]) ∧
    (∀ a' lines',
      step { st with procAlive := false,
                     lastMask := normalizeMask (msg.mask.getD []) } a' lines' =
        (.error .notRunning, [])) := by
  constructor
  · unfold step
    rw [if_neg (by simp [halive]), if_neg (by omega)]
    simp [read_json, decode_step, close, hdone, halive]
  · intro a' lines'
    unfold step
    rw [if_pos rfl]

/-- Witness for C5: a terminal step response from a live bridge, followed by
a second `step` call that fails with the not-running error. -/
theorem C5_terminal_step_witness :
    step { initState 0 "single" "normal" 0 with procAlive := true } 0
        [⟨"x", some { done := some true }⟩] =
      (.ok ({ obs := normalizeObs [], reward := 0,
              terminated := true, truncated := false,
              actionMask := normalizeMask [] },
            { initState 0 "single" "normal" 0 with
              procAlive := false
              lastMask := normalizeMask [] },
            []),
       [Event.wrote (Cmd.step 0), Event.killed]) ∧
    step { initState 0 "single" "normal" 0 with
           procAlive := false
           lastMask := normalizeMask [] } 1 [] =
      (.error .notRunning, []) := by
  have h := C5_terminal_step { initState 0 "single" "normal" 0 with procAlive := true }
    0 "x" { done := some true } [] rfl (by decide) (by decide) rfl
  exact ⟨h.1, h.2 1 []⟩

/-- C7: with a live worker, `get_snapshot` writes the snapshot command; when
the response's `snapshot` field is a mapping it returns exactly that mapping,
and when the field is absent or any non-mapping shape it fails with the
snapshot-unavailable error carrying the whole raw response. -/
theorem C7_snapshot_behaviour (st : EnvState) (raw : String) (msg : Msg)
    (rest : List RawLine) (halive : st.procAlive = true) :
    (∀ kvs, msg.snapshot = some (JVal.obj kvs) →
      get_snapshot st (⟨raw, some msg⟩ :: rest) =
        (.ok (kvs, st, rest), [Event.wrote Cmd.snapshot])) ∧
    ((∀ kvs, ¬ msg.snapshot = some (JVal.obj kvs)) →
      get_snapshot st (⟨raw, some msg⟩ :: rest) =
        (.error (.snapshotUnavailable msg), [Event.wrote Cmd.snapshot])) := by
  constructor
  · intro kvs hk
    unfold get_snapshot
    rw [if_neg (by simp [halive])]
    simp [read_json, hk]
  · intro hk
    unfold get_snapshot
    rw [if_neg (by simp [halive])]
    simp only [read_json]

/-- Witness for C7: a mapping-shaped snapshot field is returned as-is, and a
response without a snapshot field fails with the snapshot-unavailable
error. -/
theorem C7_snapshot_behaviour_witness :
    get_snapshot { initState 0 "single" "normal" 0 with procAlive := true }
        [⟨"s", some { snapshot := some (JVal.obj [("k", JVal.num 1)]) }⟩] =
      (.ok ([("k", JVal.num 1)],
            { initState 0 "single" "normal" 0 with procAlive := true }, []),
       [Event.wrote Cmd.snapshot]) ∧
    get_snapshot { initState 0 "single" "normal" 0 with procAlive := true }
        [⟨"s", some {}⟩] =
      (.error (.snapshotUnavailable {}), [Event.wrote Cmd.snapshot]) := by
  constructor
  · exact (C7_snapshot_behaviour _ "s" _ [] rfl).1 _ rfl
  · refine (C7_snapshot_behaviour _ "s" {} [] rfl).2 ?_
    intro kvs h
    simp at h

/-- C8: `close` is total (never raises), leaves the bridge closed from any
state, and is idempotent: a second consecutive `close` returns the same
state and performs no further observable action (no kill event). -/
theorem C8_close_idempotent (st : EnvState) :
    (close st).1.procAlive = false ∧
    close (close st).1 = ((close st).1, []) :=
  ⟨rfl, rfl⟩

/-- C9: a successful `get_snapshot` call leaves the whole bridge state —
including the stored last-known action mask — unchanged, so `action_masks`
returns the same vector before and after the call. -/
theorem C9_snapshot_readonly (st : EnvState) (lines : List RawLine)
    (kvs : List (String × JVal)) (st' : EnvState) (rest : List RawLine)
    (tr : List Event)
    (h : get_snapshot st lines = (.ok (kvs, st', rest), tr)) :
    st' = st ∧ action_masks st' = action_masks st := by
  unfold get_snapshot at h
  split at h
  · simp at h
  · split at h
    · simp at h
    · split at h
      · simp only [Prod.mk.injEq, Except.ok.injEq] at h
        obtain ⟨⟨_, hst, _⟩, _⟩ := h
        exact ⟨hst.symm, by rw [hst]⟩
      · simp at h

/-- Witness for C9: a concrete successful snapshot call, showing the state
and the action mask are unchanged. -/
theorem C9_snapshot_readonly_witness :
    ({ initState 0 "single" "normal" 0 with procAlive := true } : EnvState) =
        { initState 0 "single" "normal" 0 with procAlive := true } ∧
      action_masks { initState 0 "single" "normal" 0 with procAlive := true } =
        action_masks { initState 0 "single" "normal" 0 with procAlive := true } :=
  C9_snapshot_readonly
    { initState 0 "single" "normal" 0 with procAlive := true }
    [⟨"s", some { snapshot := some (JVal.obj []) }⟩]
    [] _ [] [Event.wrote Cmd.snapshot] rfl

/-- C10: the stored last-known action mask has exactly `ACTION_DIM` elements
after construction and after every successful `reset` and `step` (which also
hand a mask of that length to the caller), while `get_snapshot` and `close`
leave it untouched; `action_masks` returns the stored mask, so before the
first `reset` it returns the all-false vector. -/
theorem C10_mask_length_invariant :
    (∀ s m sm st0,
      action_masks (initState s m sm st0) = List.replicate ACTION_DIM false ∧
      (initState s m sm st0).lastMask.length = ACTION_DIM) ∧
    (∀ st seed lines obs mask st' rest tr,
      reset st seed lines = (.ok (obs, mask, st', rest), tr) →
      st'.lastMask.length = ACTION_DIM ∧ mask.length = ACTION_DIM) ∧
    (∀ st a lines res st' rest tr,
      step st a lines = (.ok (res, st', rest), tr) →
      st'.lastMask.length = ACTION_DIM ∧ res.actionMask.length = ACTION_DIM) ∧
    (∀ st lines kvs st' rest tr,
      get_snapshot st lines = (.ok (kvs, st', rest), tr) →
      st'.lastMask = st.lastMask) ∧
    (∀ st, (close st).1.lastMask = st.lastMask) ∧
    (∀ st, action_masks st = st.lastMask) := by
  refine ⟨?_, ?_, ?_, ?_, fun st => rfl, fun st => rfl⟩
  · intro s m sm st0
    exact ⟨rfl, by simp [initState]⟩
  · intro st seed lines obs mask st' rest tr h
    cases hr : read_json lines with
    | error e => simp [reset, hr] at h
    | ok p =>
      obtain ⟨msg, lines1⟩ := p
      by_cases hd : msg.done.getD false = true
      · cases hr2 : read_json lines1 with
        | error e2 => simp [reset, hr, hr2, hd, decode_step] at h
        | ok p2 =>
          obtain ⟨msg2, lines2⟩ := p2
          simp only [reset, hr, hr2, hd, decode_step, close, start, if_true,
            Prod.mk.injEq, Except.ok.injEq] at h
          rcases h with ⟨⟨rfl, rfl, rfl, rfl⟩, rfl⟩
          exact ⟨normalizeMask_length _, normalizeMask_length _⟩
      · simp only [reset, hr, hd, decode_step, close, start, if_false,
          Prod.mk.injEq, Except.ok.injEq] at h
        rcases h with ⟨⟨rfl, rfl, rfl, rfl⟩, rfl⟩
        exact ⟨normalizeMask_length _, normalizeMask_length _⟩
  · intro st a lines res st' rest tr h
    unfold step at h
    by_cases hp : st.procAlive = false
    · rw [if_pos hp] at h
      simp at h
    · rw [if_neg hp] at h
      by_cases ha : a < 0 ∨ (ACTION_DIM : Int) ≤ a
      · rw [if_pos ha] at h
        simp at h
      · rw [if_neg ha] at h
        cases hr : read_json lines with
        | error e =>
          rw [hr] at h
          simp at h
        | ok p =>
          obtain ⟨msg, lines1⟩ := p
          rw [hr] at h
          by_cases hd : msg.done.getD false = true
          · simp only [decode_step, close, hd, if_true,
              Prod.mk.injEq, Except.ok.injEq] at h
            rcases h with ⟨⟨rfl, rfl, rfl⟩, rfl⟩
            exact ⟨normalizeMask_length _, normalizeMask_length _⟩
          · simp only [decode_step, close, hd, if_false,
              Prod.mk.injEq, Except.ok.injEq] at h
            rcases h with ⟨⟨rfl, rfl, rfl⟩, rfl⟩
            exact ⟨normalizeMask_length _, normalizeMask_length _⟩
  · intro st lines kvs st' rest tr h
    unfold get_snapshot at h
    split at h
    · simp at h
    · split at h
      · simp at h
      · split at h
        · simp only [Prod.mk.injEq, Except.ok.injEq] at h
          obtain ⟨⟨_, hst, _⟩, _⟩ := h
          rw [← hst]
        · simp at h

/-- Witness for C10: the freshly constructed bridge's mask is the all-false
vector of length `ACTION_DIM`, and concrete successful `reset`, `step` and
`get_snapshot` calls keep the stored and returned masks at that length. -/
theorem C10_mask_length_invariant_witness :
    action_masks (initState 0 "single" "normal" 0) =
        List.replicate ACTION_DIM false ∧
    ({ initState 0 "single" "normal" 0 with
       procAlive := true
       lastMask := normalizeMask [] } : EnvState).lastMask.length = ACTION_DIM ∧
    (normalizeMask []).length = ACTION_DIM ∧
    ({ obs := normalizeObs [], reward := 0, terminated := false,
       truncated := false, actionMask := normalizeMask [] } :
        StepResult).actionMask.length = ACTION_DIM ∧
    ({ initState 0 "single" "normal" 0 with
       procAlive := true } : EnvState).lastMask =
      ({ initState 0 "single" "normal" 0 with
         procAlive := true } : EnvState).lastMask := by
  refine ⟨(C10_mask_length_invariant.1 0 "single" "normal" 0).1, ?_, ?_, ?_, ?_⟩
  · exact (C10_mask_length_invariant.2.1 (initState 0 "single" "normal" 0) none
      [⟨"a", some {}⟩] (normalizeObs []) (normalizeMask [])
      { initState 0 "single" "normal" 0 with
        procAlive := true
        lastMask := normalizeMask [] }
      [] [Event.spawned, Event.wrote (Cmd.hello 0 "single" "normal" 0)] rfl).1
  · exact (C10_mask_length_invariant.2.1 (initState 0 "single" "normal" 0) none
      [⟨"a", some {}⟩] (normalizeObs []) (normalizeMask [])
      { initState 0 "single" "normal" 0 with
        procAlive := true
        lastMask := normalizeMask [] }
      [] [Event.spawned, Event.wrote (Cmd.hello 0 "single" "normal" 0)] rfl).2
  · exact (C10_mask_length_invariant.2.2.1
      { initState 0 "single" "normal" 0 with procAlive := true } 0
      [⟨"a", some {}⟩]
      { obs := normalizeObs [], reward := 0, terminated := false,
        truncated := false, actionMask := normalizeMask [] }
      { initState 0 "single" "normal" 0 with
        procAlive := true
        lastMask := normalizeMask [] }
      [] [Event.wrote (Cmd.step 0)] rfl).2
  · exact C10_mask_length_invariant.2.2.2.1
      { initState 0 "single" "normal" 0 with procAlive := true }
      [⟨"s", some { snapshot := some (JVal.obj []) }⟩]
      [] { initState 0 "single" "normal" 0 with procAlive := true }
      [] [Event.wrote Cmd.snapshot] rfl

end NonameEnv
